import Mathlib

/-!
Shallow embedding of the SFML `sf::IndexBuffer` component
(src/SFML/Graphics/IndexBuffer.cpp and include/SFML/Graphics/IndexBuffer.hpp).

The GPU device is modelled by `GLState`, a finite map from nonzero buffer
identifiers to buffer objects.  A buffer object carries the usage tag passed
to the last `glBufferData` call on it and its contents as a list of 32-bit
index values (values are carried through unchanged by every operation, so
they are represented as `Nat`).  Byte sizes in the C++ are a uniform factor
of `sizeof(GLuint) = 4` over index counts, so the model works in index units.

Device nondeterminism is passed in explicitly:
  - `genId` : the identifier written by `glGenBuffers` (0 models failure);
  - `es` : whether the code was compiled with `SFML_OPENGL_ES`;
  - `copyCap` : the value of `GLEXT_copy_buffer`;
  - `srcUnmapOk`, `dstUnmapOk` : the results of the two `glUnmapBuffer` calls.

`glBufferData` with a null data pointer leaves device contents unspecified;
the model fills with zeros (no claim depends on those placeholder values).
`glBufferSubData` and `glCopyBufferSubData` perform the GL range check and
do nothing when it fails; the `memcpy` through mapped pointers has no such
check and is modelled as a prefix overwrite.
-/

inductive Usage
  | Static
  | Dynamic
  | Stream
deriving DecidableEq

/-- `VertexBufferImpl::usageToGlEnum`: GL_STATIC_DRAW, GL_DYNAMIC_DRAW,
GL_STREAM_DRAW (default branch). -/
def usageToGlEnum : Usage → Nat
  | Usage.Static => 0x88E4
  | Usage.Dynamic => 0x88E8
  | Usage.Stream => 0x88E0

/-- A device buffer object: the usage tag given at its last (re)allocation
and its contents, one entry per 32-bit index. -/
structure BufObj where
  tag : Nat
  data : List Nat
deriving DecidableEq

/-- Device memory: association list from buffer identifier to buffer object;
an earlier entry shadows later ones with the same identifier. -/
abbrev GLState := List (Nat × BufObj)

def getBuf : GLState → Nat → Option BufObj
  | [], _ => none
  | (i, o) :: rest, id => if i = id then some o else getBuf rest id

def setBuf (s : GLState) (id : Nat) (o : BufObj) : GLState :=
  (id, o) :: s

/-- `glBufferData(target, 4*count, nullptr, tag)` on the buffer bound to
`id`: fresh storage of `count` indices, unspecified contents (zeros here),
tagged with `tag`. -/
def glBufferData (s : GLState) (id : Nat) (count : Nat) (tag : Nat) : GLState :=
  setBuf s id ⟨tag, List.replicate count 0⟩

/-- `glBufferSubData(target, 4*offset, 4*count, data)`: overwrite the
sub-range [offset, offset+count) of the storage; on a range violation GL
raises GL_INVALID_VALUE and writes nothing. -/
def glBufferSubData (s : GLState) (id : Nat) (offset : Nat) (count : Nat)
    (data : List Nat) : GLState :=
  match getBuf s id with
  | none => s
  | some obj =>
    if offset + count ≤ obj.data.length then
      setBuf s id ⟨obj.tag, obj.data.take offset ++ data.take count
        ++ obj.data.drop (offset + count)⟩
    else s

/-- `glCopyBufferSubData(readTarget, writeTarget, 0, 0, 4*count)`: copy
`count` indices from the front of the read buffer to the front of the write
buffer; on a range violation on either side GL writes nothing. -/
def glCopyBufferSubData (s : GLState) (readId writeId : Nat) (count : Nat) :
    GLState :=
  match getBuf s readId, getBuf s writeId with
  | some src, some dst =>
    if count ≤ src.data.length ∧ count ≤ dst.data.length then
      setBuf s writeId ⟨dst.tag, src.data.take count ++ dst.data.drop count⟩
    else s
  | _, _ => s

/-- The `glMapBuffer` / `memcpy` / `glUnmapBuffer` transfer of the fallback
copy path: `count` indices from the front of `srcId` overwrite the front of
`dstId` (a raw memcpy through mapped pointers, no GL range check). -/
def mapCopy (s : GLState) (dstId srcId : Nat) (count : Nat) : GLState :=
  match getBuf s srcId, getBuf s dstId with
  | some src, some dst =>
    setBuf s dstId ⟨dst.tag, src.data.take count ++ dst.data.drop count⟩
  | _, _ => s

/-- `sf::IndexBuffer`: handle (`0` means unallocated), cached element count,
usage hint. -/
structure IndexBuffer where
  m_buffer : Nat
  m_size : Nat
  m_usage : Usage
deriving DecidableEq

/-- `IndexBuffer::isAvailable`: the source returns `true` unconditionally
(the capability check is a TODO in the code). -/
def isAvailable : Bool := true

/-- `IndexBuffer::getIndexCount`. -/
def getIndexCount (b : IndexBuffer) : Nat := b.m_size

/-- `IndexBuffer::create(indexCount)`.  `genId` is the identifier
`glGenBuffers` would write when the handle is still empty (0 = failure). -/
def create (b : IndexBuffer) (s : GLState) (indexCount : Nat) (genId : Nat) :
    Bool × IndexBuffer × GLState :=
  if isAvailable = false then (false, b, s)
  else
    let buf := if b.m_buffer = 0 then genId else b.m_buffer
    if buf = 0 then (false, { b with m_buffer := buf }, s)
    else
      (true, { b with m_buffer := buf, m_size := indexCount },
        glBufferData s buf indexCount (usageToGlEnum b.m_usage))

/-- `IndexBuffer::update(const GLuint*, std::size_t, unsigned int)`.
`indices = none` models a null pointer. -/
def update (b : IndexBuffer) (s : GLState) (indices : Option (List Nat))
    (indexCount : Nat) (offset : Nat) : Bool × IndexBuffer × GLState :=
  if b.m_buffer = 0 then (false, b, s)
  else
    match indices with
    | none => (false, b, s)
    | some data =>
      if offset ≠ 0 ∧ offset + indexCount > b.m_size then (false, b, s)
      else if b.m_size ≤ indexCount then
        let s1 := glBufferData s b.m_buffer indexCount (usageToGlEnum b.m_usage)
        (true, { b with m_size := indexCount },
          glBufferSubData s1 b.m_buffer offset indexCount data)
      else
        (true, b, glBufferSubData s b.m_buffer offset indexCount data)

/-- `IndexBuffer::update(const GLuint*)`: whole-buffer convenience form. -/
def updateWhole (b : IndexBuffer) (s : GLState) (indices : Option (List Nat)) :
    Bool × IndexBuffer × GLState :=
  update b s indices b.m_size 0

/-- `IndexBuffer::update(const IndexBuffer&)`: buffer-to-buffer copy.
`es` is the `SFML_OPENGL_ES` compile flag, `copyCap` the value of
`GLEXT_copy_buffer`, `srcUnmapOk` / `dstUnmapOk` the two unmap results. -/
def updateFrom (b : IndexBuffer) (other : IndexBuffer) (s : GLState)
    (es copyCap srcUnmapOk dstUnmapOk : Bool) : Bool × IndexBuffer × GLState :=
  if es then (false, b, s)
  else if b.m_buffer = 0 ∨ other.m_buffer = 0 then (false, b, s)
  else if copyCap then
    (true, b, glCopyBufferSubData s other.m_buffer b.m_buffer other.m_size)
  else
    let s1 := glBufferData s b.m_buffer other.m_size (usageToGlEnum b.m_usage)
    let s2 := mapCopy s1 b.m_buffer other.m_buffer other.m_size
    if srcUnmapOk = false ∨ dstUnmapOk = false then (false, b, s2)
    else (true, b, s2)

/-- `IndexBuffer::IndexBuffer(const IndexBuffer&)`: copy construction.
On a `create` failure it returns early; on an `update(copy)` failure it only
reports to the error stream. -/
def copyCtor (src : IndexBuffer) (s : GLState) (genId : Nat)
    (es copyCap srcUnmapOk dstUnmapOk : Bool) : IndexBuffer × GLState :=
  let b0 : IndexBuffer := ⟨0, 0, src.m_usage⟩
  if src.m_buffer ≠ 0 ∧ src.m_size ≠ 0 then
    let r := create b0 s src.m_size genId
    if r.1 = false then (r.2.1, r.2.2)
    else
      let r2 := updateFrom r.2.1 src r.2.2 es copyCap srcUnmapOk dstUnmapOk
      (r2.2.1, r2.2.2)
  else (b0, s)

example :
    (update ⟨1, 3, Usage.Static⟩ [(1, ⟨0x88E4, [4, 5, 6]⟩)]
      (some [9]) 1 1).2.2 = [(1, ⟨0x88E4, [4, 9, 6]⟩), (1, ⟨0x88E4, [4, 5, 6]⟩)] := by
  decide

/-! Helper lemmas shared by the claim theorems. -/

lemma getBuf_setBuf_self (s : GLState) (id : Nat) (o : BufObj) :
    getBuf (setBuf s id o) id = some o := by
  simp [getBuf, setBuf]

lemma getBuf_setBuf_ne (s : GLState) (id j : Nat) (o : BufObj) (h : j ≠ id) :
    getBuf (setBuf s id o) j = getBuf s j := by
  simp [getBuf, setBuf, Ne.symm h]

lemma updateFrom_fst_snd (b other : IndexBuffer) (s : GLState)
    (es copyCap srcUnmapOk dstUnmapOk : Bool) :
    (updateFrom b other s es copyCap srcUnmapOk dstUnmapOk).2.1 = b := by
  unfold updateFrom
  repeat' split
  all_goals rfl

lemma glBufferSubData_some (s : GLState) (id offset count : Nat)
    (data : List Nat) (obj : BufObj) (hobj : getBuf s id = some obj) :
    glBufferSubData s id offset count data
      = if offset + count ≤ obj.data.length then
          setBuf s id ⟨obj.tag, obj.data.take offset ++ data.take count
            ++ obj.data.drop (offset + count)⟩
        else s := by
  unfold glBufferSubData
  rw [hobj]

lemma update_fail (b : IndexBuffer) (s : GLState) (indices : Option (List Nat))
    (indexCount offset : Nat)
    (h : b.m_buffer = 0 ∨ indices = none
      ∨ (offset ≠ 0 ∧ offset + indexCount > b.m_size)) :
    update b s indices indexCount offset = (false, b, s) := by
  unfold update
  rcases h with h | h | h
  · simp [h]
  · subst h
    split
    · rfl
    · rfl
  · split
    · rfl
    · rcases indices with _ | data
      · rfl
      · simp [h]

lemma update_realloc (b : IndexBuffer) (s : GLState) (data : List Nat)
    (indexCount offset : Nat)
    (hb : ¬ b.m_buffer = 0)
    (hrange : ¬ (offset ≠ 0 ∧ offset + indexCount > b.m_size))
    (hge : b.m_size ≤ indexCount) :
    update b s (some data) indexCount offset
      = (true, { b with m_size := indexCount },
          glBufferSubData
            (glBufferData s b.m_buffer indexCount (usageToGlEnum b.m_usage))
            b.m_buffer offset indexCount data) := by
  unfold update
  rw [if_neg hb]
  simp only [if_neg hrange, if_pos hge]

lemma update_in_place (b : IndexBuffer) (s : GLState) (data : List Nat)
    (indexCount offset : Nat)
    (hb : ¬ b.m_buffer = 0)
    (hrange : ¬ (offset ≠ 0 ∧ offset + indexCount > b.m_size))
    (hlt : indexCount < b.m_size) :
    update b s (some data) indexCount offset
      = (true, b, glBufferSubData s b.m_buffer offset indexCount data) := by
  unfold update
  rw [if_neg hb]
  simp only [if_neg hrange, if_neg (by omega : ¬ b.m_size ≤ indexCount)]

lemma getBuf_glBufferData_self (s : GLState) (id count tag : Nat) :
    getBuf (glBufferData s id count tag) id
      = some ⟨tag, List.replicate count 0⟩ :=
  getBuf_setBuf_self s id ⟨tag, List.replicate count 0⟩

lemma getBuf_glBufferData_ne (s : GLState) (id j count tag : Nat) (h : j ≠ id) :
    getBuf (glBufferData s id count tag) j = getBuf s j :=
  getBuf_setBuf_ne s id j ⟨tag, List.replicate count 0⟩ h

lemma glCopyBufferSubData_some (s : GLState) (readId writeId count : Nat)
    (src dst : BufObj) (hsrc : getBuf s readId = some src)
    (hdst : getBuf s writeId = some dst) :
    glCopyBufferSubData s readId writeId count
      = if count ≤ src.data.length ∧ count ≤ dst.data.length then
          setBuf s writeId ⟨dst.tag, src.data.take count ++ dst.data.drop count⟩
        else s := by
  unfold glCopyBufferSubData
  rw [hsrc, hdst]

lemma mapCopy_some (s : GLState) (dstId srcId count : Nat) (src dst : BufObj)
    (hsrc : getBuf s srcId = some src) (hdst : getBuf s dstId = some dst) :
    mapCopy s dstId srcId count
      = setBuf s dstId ⟨dst.tag, src.data.take count ++ dst.data.drop count⟩ := by
  unfold mapCopy
  rw [hsrc, hdst]

lemma updateFrom_fallback (b other : IndexBuffer) (s : GLState)
    (hb : ¬ b.m_buffer = 0) (ho : ¬ other.m_buffer = 0) :
    updateFrom b other s false false true true
      = (true, b,
          mapCopy
            (glBufferData s b.m_buffer other.m_size (usageToGlEnum b.m_usage))
            b.m_buffer other.m_buffer other.m_size) := by
  unfold updateFrom
  simp [hb, ho]

lemma updateFrom_fast (b other : IndexBuffer) (s : GLState)
    (hb : ¬ b.m_buffer = 0) (ho : ¬ other.m_buffer = 0) :
    updateFrom b other s false true true true
      = (true, b, glCopyBufferSubData s other.m_buffer b.m_buffer other.m_size) := by
  unfold updateFrom
  simp [hb, ho]

lemma create_success (b : IndexBuffer) (s : GLState) (n gid : Nat)
    (h : (create b s n gid).1 = true) :
    (create b s n gid).2.1.m_size = n ∧ (create b s n gid).2.1.m_buffer ≠ 0 := by
  unfold create at h ⊢
  simp only [isAvailable, Bool.true_eq_false, if_false] at h ⊢
  by_cases hbuf : (if b.m_buffer = 0 then gid else b.m_buffer) = 0
  · rw [if_pos hbuf] at h
    simp at h
  · rw [if_neg hbuf]
    exact ⟨rfl, hbuf⟩

/-- C5: when the handle is empty, or the data pointer is null, or the offset
is nonzero with `offset + count > capacity`, `update` returns failure and is
the identity on both the buffer record and the whole device state. -/
theorem C5_precondition_failure_no_side_effect (b : IndexBuffer) (s : GLState)
    (indices : Option (List Nat)) (indexCount offset : Nat)
    (h : b.m_buffer = 0 ∨ indices = none
      ∨ (offset ≠ 0 ∧ offset + indexCount > b.m_size)) :
    update b s indices indexCount offset = (false, b, s) :=
  update_fail b s indices indexCount offset h

theorem C5_witness : update ⟨1, 4, Usage.Static⟩ [] (some [9, 9]) 2 3
    = (false, ⟨1, 4, Usage.Static⟩, []) :=
  C5_precondition_failure_no_side_effect ⟨1, 4, Usage.Static⟩ [] (some [9, 9]) 2 3
    (Or.inr (Or.inr (by decide)))

/-- C7: a partial update never shrinks the cached capacity, on any path,
success or failure. -/
theorem C7_capacity_monotone (b : IndexBuffer) (s : GLState)
    (indices : Option (List Nat)) (indexCount offset : Nat) :
    b.m_size ≤ (update b s indices indexCount offset).2.1.m_size := by
  by_cases hb : b.m_buffer = 0
  · rw [update_fail b s indices indexCount offset (Or.inl hb)]
  · rcases indices with _ | data
    · rw [update_fail b s none indexCount offset (Or.inr (Or.inl rfl))]
    · by_cases hrange : offset ≠ 0 ∧ offset + indexCount > b.m_size
      · rw [update_fail b s (some data) indexCount offset (Or.inr (Or.inr hrange))]
      · by_cases hge : b.m_size ≤ indexCount
        · rw [update_realloc b s data indexCount offset hb hrange hge]
          exact hge
        · rw [update_in_place b s data indexCount offset hb hrange (by omega)]

/-- C8: the buffer-to-buffer copy leaves the target's cached element count,
handle and usage unchanged on every path (the record is returned as is, even
when the fallback reallocates the device storage). -/
theorem C8_updateFrom_preserves_record (b other : IndexBuffer) (s : GLState)
    (es copyCap srcUnmapOk dstUnmapOk : Bool) :
    (updateFrom b other s es copyCap srcUnmapOk dstUnmapOk).2.1 = b
      ∧ getIndexCount (updateFrom b other s es copyCap srcUnmapOk dstUnmapOk).2.1
        = getIndexCount b := by
  refine ⟨updateFrom_fst_snd b other s es copyCap srcUnmapOk dstUnmapOk, ?_⟩
  rw [updateFrom_fst_snd]

/-- C9: a successful `update` with nonzero offset necessarily has
`count < capacity`, so the reallocation branch is not taken: the buffer
record is unchanged and the device storage keeps its usage tag. -/
theorem C9_nonzero_offset_in_place (b : IndexBuffer) (s : GLState)
    (indices : Option (List Nat)) (indexCount offset : Nat)
    (hoff : offset ≠ 0)
    (hs : (update b s indices indexCount offset).1 = true) :
    indexCount < b.m_size ∧ (update b s indices indexCount offset).2.1 = b
      ∧ ∀ obj, getBuf s b.m_buffer = some obj →
          ∃ o, getBuf (update b s indices indexCount offset).2.2 b.m_buffer
            = some o ∧ o.tag = obj.tag := by
  by_cases hb : b.m_buffer = 0
  · rw [update_fail b s indices indexCount offset (Or.inl hb)] at hs
    exact absurd hs (by simp)
  rcases indices with _ | data
  · rw [update_fail b s none indexCount offset (Or.inr (Or.inl rfl))] at hs
    exact absurd hs (by simp)
  by_cases hrange : offset ≠ 0 ∧ offset + indexCount > b.m_size
  · rw [update_fail b s (some data) indexCount offset (Or.inr (Or.inr hrange))] at hs
    exact absurd hs (by simp)
  have hlt : indexCount < b.m_size := by
    by_contra hge
    exact hrange ⟨hoff, by omega⟩
  rw [update_in_place b s data indexCount offset hb hrange hlt]
  refine ⟨hlt, rfl, ?_⟩
  intro obj hobj
  rw [glBufferSubData_some s b.m_buffer offset indexCount data obj hobj]
  split
  · exact ⟨_, getBuf_setBuf_self _ _ _, rfl⟩
  · exact ⟨obj, hobj, rfl⟩

theorem C9_witness : (1 < 3 ∧ (update ⟨1, 3, Usage.Static⟩
      [(1, ⟨0x88E4, [4, 5, 6]⟩)] (some [9]) 1 1).2.1 = ⟨1, 3, Usage.Static⟩
    ∧ ∀ obj, getBuf [(1, ⟨0x88E4, [4, 5, 6]⟩)] 1 = some obj →
        ∃ o, getBuf (update ⟨1, 3, Usage.Static⟩ [(1, ⟨0x88E4, [4, 5, 6]⟩)]
          (some [9]) 1 1).2.2 1 = some o ∧ o.tag = obj.tag) :=
  C9_nonzero_offset_in_place ⟨1, 3, Usage.Static⟩ [(1, ⟨0x88E4, [4, 5, 6]⟩)]
    (some [9]) 1 1 (by decide) (by decide)

/-- C10: copy-constructing from a source with a nonzero handle but capacity
0 makes no device call and yields an empty-handle, capacity-0 instance with
the source's usage. -/
theorem C10_copy_from_zero_capacity (src : IndexBuffer) (s : GLState)
    (genId : Nat) (es copyCap srcUnmapOk dstUnmapOk : Bool)
    (_hb : src.m_buffer ≠ 0) (hz : src.m_size = 0) :
    copyCtor src s genId es copyCap srcUnmapOk dstUnmapOk
      = (⟨0, 0, src.m_usage⟩, s) := by
  unfold copyCtor
  simp [hz]

theorem C10_witness : copyCtor ⟨7, 0, Usage.Dynamic⟩
      [(7, ⟨0x88E8, []⟩)] 9 false true true true
    = (⟨0, 0, Usage.Dynamic⟩, [(7, ⟨0x88E8, []⟩)]) :=
  C10_copy_from_zero_capacity ⟨7, 0, Usage.Dynamic⟩ [(7, ⟨0x88E8, []⟩)]
    9 false true true true (by decide) (by decide)

/-- C4: on an allocated buffer, a zero-offset update with `count >= capacity`
succeeds, reallocates the device storage to exactly `count` indices tagged
with the current usage (old contents discarded), writes all `count` indices,
and sets the cached capacity to `count`. -/
theorem C4_grow_reallocates (b : IndexBuffer) (s : GLState) (data : List Nat)
    (indexCount : Nat) (hb : ¬ b.m_buffer = 0) (hge : b.m_size ≤ indexCount)
    (hlen : data.length = indexCount) :
    (update b s (some data) indexCount 0).1 = true
      ∧ (update b s (some data) indexCount 0).2.1
          = { b with m_size := indexCount }
      ∧ getBuf (update b s (some data) indexCount 0).2.2 b.m_buffer
          = some ⟨usageToGlEnum b.m_usage, data⟩ := by
  rw [update_realloc b s data indexCount 0 hb (by simp) hge]
  refine ⟨rfl, rfl, ?_⟩
  rw [glBufferSubData_some _ _ _ _ _ ⟨usageToGlEnum b.m_usage,
      List.replicate indexCount 0⟩ (getBuf_glBufferData_self s b.m_buffer
      indexCount (usageToGlEnum b.m_usage)),
    if_pos (by simp), getBuf_setBuf_self]
  subst hlen
  simp

theorem C4_witness :
    (update ⟨1, 2, Usage.Dynamic⟩ [(1, ⟨0x88E8, [4, 5]⟩)]
        (some [7, 8, 9]) 3 0).1 = true
      ∧ (update ⟨1, 2, Usage.Dynamic⟩ [(1, ⟨0x88E8, [4, 5]⟩)]
          (some [7, 8, 9]) 3 0).2.1 = ⟨1, 3, Usage.Dynamic⟩
      ∧ getBuf (update ⟨1, 2, Usage.Dynamic⟩ [(1, ⟨0x88E8, [4, 5]⟩)]
          (some [7, 8, 9]) 3 0).2.2 1 = some ⟨0x88E8, [7, 8, 9]⟩ :=
  C4_grow_reallocates ⟨1, 2, Usage.Dynamic⟩ [(1, ⟨0x88E8, [4, 5]⟩)] [7, 8, 9] 3
    (by decide) (by decide) (by decide)

/-- C6: on an allocated buffer with non-null data, an in-place update
(zero offset with `count < capacity`, or nonzero offset with
`offset + count <= capacity`) succeeds, overwrites exactly the sub-range
[offset, offset+count) of the device storage, leaves everything outside
that range and all other buffers untouched, and keeps the buffer record
(capacity included) unchanged. -/
theorem C6_in_place_exact (b : IndexBuffer) (s : GLState) (obj : BufObj)
    (data : List Nat) (indexCount offset : Nat)
    (hb : ¬ b.m_buffer = 0)
    (hobj : getBuf s b.m_buffer = some obj)
    (hinv : obj.data.length = b.m_size)
    (hlen : data.length = indexCount)
    (hcase : (offset = 0 ∧ indexCount < b.m_size)
      ∨ (offset ≠ 0 ∧ offset + indexCount ≤ b.m_size)) :
    (update b s (some data) indexCount offset).1 = true
      ∧ (update b s (some data) indexCount offset).2.1 = b
      ∧ getBuf (update b s (some data) indexCount offset).2.2 b.m_buffer
          = some ⟨obj.tag, obj.data.take offset ++ data
              ++ obj.data.drop (offset + indexCount)⟩
      ∧ ∀ j, j ≠ b.m_buffer →
          getBuf (update b s (some data) indexCount offset).2.2 j
            = getBuf s j := by
  have hlt : indexCount < b.m_size := by
    rcases hcase with ⟨h0, hlt⟩ | ⟨hne0, hle⟩
    · exact hlt
    · omega
  have hle2 : offset + indexCount ≤ b.m_size := by
    rcases hcase with ⟨h0, hlt2⟩ | ⟨hne0, hle⟩
    · omega
    · exact hle
  have hrange : ¬ (offset ≠ 0 ∧ offset + indexCount > b.m_size) := by
    rintro ⟨hne0, hgt⟩
    omega
  rw [update_in_place b s data indexCount offset hb hrange hlt]
  refine ⟨rfl, rfl, ?_, ?_⟩
  · rw [glBufferSubData_some s b.m_buffer offset indexCount data obj hobj,
      if_pos (by omega), getBuf_setBuf_self]
    subst hlen
    simp
  · intro j hj
    rw [glBufferSubData_some s b.m_buffer offset indexCount data obj hobj,
      if_pos (by omega)]
    exact getBuf_setBuf_ne s b.m_buffer j _ hj

theorem C6_witness :
    (update ⟨1, 5, Usage.Static⟩ [(1, ⟨0x88E4, [4, 5, 6, 7, 8]⟩)]
        (some [9, 9]) 2 2).1 = true
      ∧ (update ⟨1, 5, Usage.Static⟩ [(1, ⟨0x88E4, [4, 5, 6, 7, 8]⟩)]
          (some [9, 9]) 2 2).2.1 = ⟨1, 5, Usage.Static⟩
      ∧ getBuf (update ⟨1, 5, Usage.Static⟩ [(1, ⟨0x88E4, [4, 5, 6, 7, 8]⟩)]
          (some [9, 9]) 2 2).2.2 1
          = some ⟨0x88E4, [4, 5] ++ [9, 9] ++ [8]⟩
      ∧ ∀ j, j ≠ 1 →
          getBuf (update ⟨1, 5, Usage.Static⟩ [(1, ⟨0x88E4, [4, 5, 6, 7, 8]⟩)]
            (some [9, 9]) 2 2).2.2 j
            = getBuf [(1, ⟨0x88E4, [4, 5, 6, 7, 8]⟩)] j :=
  C6_in_place_exact ⟨1, 5, Usage.Static⟩ [(1, ⟨0x88E4, [4, 5, 6, 7, 8]⟩)]
    ⟨0x88E4, [4, 5, 6, 7, 8]⟩ [9, 9] 2 2 (by decide) (by decide) (by decide)
    (by decide) (by decide)

/-- C1 counterexample: after a successful `create(0)` (handle kept, storage
deallocated), an `update(data, 1, 0)` returns success, not failure — the
zero-offset path reallocates instead of failing. -/
theorem C1_counterexample :
    (create ⟨0, 0, Usage.Stream⟩ [] 0 1).1 = true
      ∧ (update (create ⟨0, 0, Usage.Stream⟩ [] 0 1).2.1
          (create ⟨0, 0, Usage.Stream⟩ [] 0 1).2.2 (some [5]) 1 0).1 = true := by
  decide

/-- C1 (amended): after a successful `create(0)`, every update with a
nonzero offset returns failure, while an update with offset 0 and non-null
data succeeds (it reallocates, so no re-create is required). -/
theorem C1_after_create_zero (b : IndexBuffer) (s : GLState) (gid : Nat)
    (h : (create b s 0 gid).1 = true) :
    ∀ (indices : Option (List Nat)) (indexCount offset : Nat),
      (offset ≠ 0 →
        (update (create b s 0 gid).2.1 (create b s 0 gid).2.2 indices
          indexCount offset).1 = false)
      ∧ (offset = 0 → indices ≠ none →
        (update (create b s 0 gid).2.1 (create b s 0 gid).2.2 indices
          indexCount offset).1 = true) := by
  obtain ⟨hsz, hbuf⟩ := create_success b s 0 gid h
  intro indices indexCount offset
  constructor
  · intro hoff
    rw [update_fail _ _ _ _ _ (Or.inr (Or.inr ⟨hoff, by omega⟩))]
  · intro h0 hnn
    rcases indices with _ | data
    · exact absurd rfl hnn
    · subst h0
      rw [update_realloc _ _ data indexCount 0 hbuf (by simp) (by omega)]

theorem C1_witness :
    (update (create ⟨0, 0, Usage.Stream⟩ [] 0 1).2.1
      (create ⟨0, 0, Usage.Stream⟩ [] 0 1).2.2 (some [5]) 1 2).1 = false :=
  ((C1_after_create_zero ⟨0, 0, Usage.Stream⟩ [] 1 (by decide))
    (some [5]) 1 2).1 (by decide)

/-- C2 counterexample: copying A (capacity 2) into an allocated B whose
cached count is 5 via the fallback path succeeds, yet B's `getIndexCount`
stays 5 — it does not become A's capacity. -/
theorem C2_counterexample :
    (updateFrom ⟨2, 5, Usage.Static⟩ ⟨1, 2, Usage.Static⟩
        [(1, ⟨0x88E4, [7, 8]⟩), (2, ⟨0x88E4, [1, 1, 1, 1, 1]⟩)]
        false false true true).1 = true
      ∧ getIndexCount (updateFrom ⟨2, 5, Usage.Static⟩ ⟨1, 2, Usage.Static⟩
          [(1, ⟨0x88E4, [7, 8]⟩), (2, ⟨0x88E4, [1, 1, 1, 1, 1]⟩)]
          false false true true).2.1
        ≠ getIndexCount ⟨1, 2, Usage.Static⟩ := by
  decide

/-- C2 (amended): on success the copy transfers A's device contents — the
fallback reallocates B's storage to exactly A's capacity and fills it with
A's contents; the fast path overwrites the first A-capacity entries of B's
existing storage — while B's record (cached count, handle, usage) is
unchanged; B's capacity does not become A's. -/
theorem C2_copy_contents (A B : IndexBuffer) (s : GLState) (objA objB : BufObj)
    (hA : ¬ A.m_buffer = 0) (hB : ¬ B.m_buffer = 0)
    (hne : A.m_buffer ≠ B.m_buffer)
    (hgA : getBuf s A.m_buffer = some objA)
    (hlenA : objA.data.length = A.m_size)
    (hgB : getBuf s B.m_buffer = some objB)
    (hlenB : A.m_size ≤ objB.data.length) :
    ((updateFrom B A s false false true true).1 = true
      ∧ (updateFrom B A s false false true true).2.1 = B
      ∧ getBuf (updateFrom B A s false false true true).2.2 B.m_buffer
          = some ⟨usageToGlEnum B.m_usage, objA.data⟩)
    ∧ ((updateFrom B A s false true true true).1 = true
      ∧ (updateFrom B A s false true true true).2.1 = B
      ∧ getBuf (updateFrom B A s false true true true).2.2 B.m_buffer
          = some ⟨objB.tag, objA.data ++ objB.data.drop A.m_size⟩) := by
  constructor
  · rw [updateFrom_fallback B A s hB hA]
    refine ⟨rfl, rfl, ?_⟩
    have h1 : getBuf (glBufferData s B.m_buffer A.m_size
        (usageToGlEnum B.m_usage)) A.m_buffer = some objA := by
      rw [getBuf_glBufferData_ne s B.m_buffer A.m_buffer A.m_size
        (usageToGlEnum B.m_usage) hne]
      exact hgA
    have h2 : getBuf (glBufferData s B.m_buffer A.m_size
        (usageToGlEnum B.m_usage)) B.m_buffer
        = some ⟨usageToGlEnum B.m_usage, List.replicate A.m_size 0⟩ :=
      getBuf_glBufferData_self s B.m_buffer A.m_size (usageToGlEnum B.m_usage)
    rw [mapCopy_some _ _ _ _ _ _ h1 h2, getBuf_setBuf_self]
    rw [← hlenA, List.take_length]
    simp
  · rw [updateFrom_fast B A s hB hA]
    refine ⟨rfl, rfl, ?_⟩
    rw [glCopyBufferSubData_some s A.m_buffer B.m_buffer A.m_size objA objB
        hgA hgB,
      if_pos ⟨by omega, hlenB⟩, getBuf_setBuf_self, ← hlenA, List.take_length]

theorem C2_witness :
    (((updateFrom ⟨2, 3, Usage.Dynamic⟩ ⟨1, 2, Usage.Static⟩
        [(1, ⟨0x88E4, [7, 8]⟩), (2, ⟨0x88E8, [1, 1, 1]⟩)]
        false false true true).1 = true
      ∧ (updateFrom ⟨2, 3, Usage.Dynamic⟩ ⟨1, 2, Usage.Static⟩
          [(1, ⟨0x88E4, [7, 8]⟩), (2, ⟨0x88E8, [1, 1, 1]⟩)]
          false false true true).2.1 = ⟨2, 3, Usage.Dynamic⟩
      ∧ getBuf (updateFrom ⟨2, 3, Usage.Dynamic⟩ ⟨1, 2, Usage.Static⟩
          [(1, ⟨0x88E4, [7, 8]⟩), (2, ⟨0x88E8, [1, 1, 1]⟩)]
          false false true true).2.2 2
          = some ⟨0x88E8, [7, 8]⟩)
    ∧ ((updateFrom ⟨2, 3, Usage.Dynamic⟩ ⟨1, 2, Usage.Static⟩
        [(1, ⟨0x88E4, [7, 8]⟩), (2, ⟨0x88E8, [1, 1, 1]⟩)]
        false true true true).1 = true
      ∧ (updateFrom ⟨2, 3, Usage.Dynamic⟩ ⟨1, 2, Usage.Static⟩
          [(1, ⟨0x88E4, [7, 8]⟩), (2, ⟨0x88E8, [1, 1, 1]⟩)]
          false true true true).2.1 = ⟨2, 3, Usage.Dynamic⟩
      ∧ getBuf (updateFrom ⟨2, 3, Usage.Dynamic⟩ ⟨1, 2, Usage.Static⟩
          [(1, ⟨0x88E4, [7, 8]⟩), (2, ⟨0x88E8, [1, 1, 1]⟩)]
          false true true true).2.2 2
          = some ⟨0x88E8, [7, 8] ++ [1]⟩)) :=
  C2_copy_contents ⟨1, 2, Usage.Static⟩ ⟨2, 3, Usage.Dynamic⟩
    [(1, ⟨0x88E4, [7, 8]⟩), (2, ⟨0x88E8, [1, 1, 1]⟩)]
    ⟨0x88E4, [7, 8]⟩ ⟨0x88E8, [1, 1, 1]⟩
    (by decide) (by decide) (by decide) (by decide) (by decide) (by decide)
    (by decide)

/-- C3 counterexample: copy-constructing from an allocated source where the
buffer-to-buffer copy stage fails (unmap of the source reports failure)
yields an instance whose handle is 3 and capacity 2 — the allocated resource
is kept, not discarded. -/
theorem C3_counterexample :
    (create ⟨0, 0, Usage.Static⟩ [(1, ⟨0x88E4, [7, 8]⟩)] 2 3).1 = true
      ∧ (updateFrom (create ⟨0, 0, Usage.Static⟩ [(1, ⟨0x88E4, [7, 8]⟩)] 2 3).2.1
          ⟨1, 2, Usage.Static⟩
          (create ⟨0, 0, Usage.Static⟩ [(1, ⟨0x88E4, [7, 8]⟩)] 2 3).2.2
          false false false true).1 = false
      ∧ (copyCtor ⟨1, 2, Usage.Static⟩ [(1, ⟨0x88E4, [7, 8]⟩)] 3
          false false false true).1.m_buffer = 3
      ∧ (copyCtor ⟨1, 2, Usage.Static⟩ [(1, ⟨0x88E4, [7, 8]⟩)] 3
          false false false true).1.m_size = 2 := by
  decide

/-- C3 (amended): copy-constructing from a source with an allocated, nonzero
capacity resource yields, on a resource-creation failure, an instance with
the source's usage, empty handle and capacity 0; but when creation succeeds
the instance keeps the allocated resource (handle = generated id, capacity =
source's capacity, usage = source's usage) even if the content-copy stage
fails. -/
theorem C3_copy_failure_state (src : IndexBuffer) (s : GLState) (genId : Nat)
    (es copyCap srcUnmapOk dstUnmapOk : Bool)
    (hb : src.m_buffer ≠ 0) (hn : src.m_size ≠ 0) :
    (genId = 0 →
      copyCtor src s genId es copyCap srcUnmapOk dstUnmapOk
        = (⟨0, 0, src.m_usage⟩, s))
    ∧ (genId ≠ 0 →
      (copyCtor src s genId es copyCap srcUnmapOk dstUnmapOk).1
        = ⟨genId, src.m_size, src.m_usage⟩) := by
  constructor
  · intro h0
    subst h0
    unfold copyCtor create
    simp [isAvailable, hb, hn]
  · intro hg
    have hc : create ⟨0, 0, src.m_usage⟩ s src.m_size genId
        = (true, ⟨genId, src.m_size, src.m_usage⟩,
            glBufferData s genId src.m_size (usageToGlEnum src.m_usage)) := by
      unfold create
      simp [isAvailable, hg]
    unfold copyCtor
    rw [if_pos ⟨hb, hn⟩, hc]
    rw [if_neg (by simp)]
    exact updateFrom_fst_snd _ _ _ _ _ _ _

theorem C3_witness :
    (copyCtor ⟨1, 2, Usage.Static⟩ [(1, ⟨0x88E4, [7, 8]⟩)] 3
      false false false true).1 = ⟨3, 2, Usage.Static⟩ :=
  (C3_copy_failure_state ⟨1, 2, Usage.Static⟩ [(1, ⟨0x88E4, [7, 8]⟩)] 3
    false false false true (by decide) (by decide)).2 (by decide)
